import Mathlib

/-!
Shallow embedding of the token verification and key-cache subsystem of
`app/core/auth.py` (fastapi-cognito).

Modelling conventions:
* Python dicts of strings (JWK records, token headers) are association lists
  `List (String × String)`; `dictGet` is Python's `dict.get` (first binding wins,
  `none` when absent).
* Wall-clock time (`time.time()`) is an `Int`; only comparisons matter here.
* The process-wide mutable cache `_jwks_cache` is passed and returned explicitly.
* The single `httpx.get` + `raise_for_status` + `response.json()` sequence is
  summarised by a `FetchResult` value describing what the network interaction
  would have produced; `_get_jwks` consumes it exactly as the `try/except
  httpx.HTTPError` block does.  A `Bool` field records whether the fetch was
  actually reached (the network call happens only on a cache miss).
* Python exceptions become a `PyResult`: `HTTPException(status, detail)` is
  `PyErr.httpExc`, and the `json.JSONDecodeError` that `response.json()` raises
  on a malformed body — which is *not* an `httpx.HTTPError` and therefore
  escapes the handler — is `PyErr.jsonDecodeError`.
* The cryptographic part of python-jose's `jwt.decode` is abstracted: a token
  carries a predicate `sigOk : Dict → Bool` saying under which JWK its signature
  verifies.  The claim-validation part of `jwt.decode` is modelled after the
  python-jose implementation: signature first, then `exp`, `aud`, `iss` in that
  order; a missing claim passes its check; expiry fails exactly when `exp < now`.
-/

abbrev Dict := List (String × String)

/-- Python `d.get(k)`: first binding for `k`, `none` when absent. -/
def dictGet (d : Dict) (k : String) : Option String :=
  (d.find? (fun p => p.1 == k)).map (fun p => p.2)

/-- The decoded JWT payload fields the code ever touches. -/
structure Claims where
  sub : Option String
  email : Option String
  token_use : Option String
  exp : Option Int
  aud : Option String
  iss : Option String
  deriving Repr, DecidableEq

/-- A bearer token, abstracted: `header` is the result of
`jwt.get_unverified_header` (`none` when that raises `JWTError`), `sigOk k` says
whether the RS256 signature verifies under JWK `k`, and `claims` is the payload. -/
structure Token where
  header : Option Dict
  sigOk : Dict → Bool
  claims : Claims

/-- The settings fields `app/core/auth.py` reads (`app/config.py`). -/
structure Settings where
  cognito_user_pool_id : String
  cognito_client_id : String
  aws_region : String
  deriving Repr, DecidableEq

/-- `Settings.cognito_issuer` property from `app/config.py`. -/
def Settings.cognito_issuer (s : Settings) : String :=
  "https://cognito-idp." ++ s.aws_region ++ ".amazonaws.com/" ++ s.cognito_user_pool_id

/-- The module-level `_jwks_cache` dict: `{"keys": [], "fetched_at": 0}`. -/
structure JwksCache where
  keys : List Dict
  fetched_at : Int
  deriving Repr, DecidableEq

def JWKS_CACHE_TTL : Int := 3600

/-- Python exceptions surfaced by the module: `HTTPException(status, detail)`
and the uncaught `json.JSONDecodeError` from `response.json()`. -/
inductive PyErr
  | httpExc (statusCode : Nat) (detail : String)
  | jsonDecodeError
  deriving Repr, DecidableEq

/-- A Python call that either returns a value or raises. -/
inductive PyResult (α : Type)
  | ok (val : α)
  | raised (e : PyErr)
  deriving Repr, DecidableEq

/-- What the `httpx.get` / `raise_for_status` / `response.json()` sequence in
`_get_jwks` would produce if reached: a transport error or a non-success status
(both are `httpx.HTTPError` subclasses), a successful response whose body is not
valid JSON (raises `json.JSONDecodeError`), or a parsed JSON object whose
`"keys"` member is `keysField` (`none` when absent, so `jwks.get("keys", [])`
yields `[]`).  `msg` stands for `str(e)` of the httpx exception. -/
inductive FetchResult
  | transportError (msg : String)
  | statusError (msg : String)
  | malformedBody
  | ok (keysField : Option (List Dict))
  deriving Repr, DecidableEq

/-- Result of `_get_jwks`: returned value or exception, the cache state after
the call, and whether the network fetch was reached. -/
structure JwksResult where
  result : PyResult (List Dict)
  cache : JwksCache
  fetchCalled : Bool
  deriving Repr, DecidableEq

/-- `_get_jwks(settings)` from `app/core/auth.py`, with the ambient cache, clock
and network made explicit.  Cached keys are served when the key list is truthy
(non-empty) and `now - fetched_at < JWKS_CACHE_TTL`; otherwise the fetch runs:
an `httpx.HTTPError` is mapped to `HTTPException(503, "Could not fetch JWKS: " + e)`
with the cache untouched, a malformed body raises `json.JSONDecodeError` past the
handler with the cache untouched, and a parsed body replaces the whole cache. -/
def _get_jwks (fetch : FetchResult) (now : Int) (cache : JwksCache) : JwksResult :=
  if cache.keys ≠ [] ∧ now - cache.fetched_at < JWKS_CACHE_TTL then
    ⟨.ok cache.keys, cache, false⟩
  else
    match fetch with
    | .transportError m => ⟨.raised (.httpExc 503 ("Could not fetch JWKS: " ++ m)), cache, true⟩
    | .statusError m => ⟨.raised (.httpExc 503 ("Could not fetch JWKS: " ++ m)), cache, true⟩
    | .malformedBody => ⟨.raised .jsonDecodeError, cache, true⟩
    | .ok keysField =>
      let ks := keysField.getD []
      ⟨.ok ks, ⟨ks, now⟩, true⟩

/-- `_get_signing_key(token, jwks)` from `app/core/auth.py`: parse the header
(`JWTError` → `None`), read `kid` with `dict.get` (possibly `None`), and return
the first key whose `key.get("kid")` equals it — Python's `None == None` is
`True`, mirrored by `Option` equality. -/
def _get_signing_key (token : Token) (jwks : List Dict) : Option Dict :=
  match token.header with
  | none => none
  | some h => jwks.find? (fun key => dictGet key "kid" == dictGet h "kid")

/-- Outcome of python-jose's `jwt.decode`. -/
inductive JoseOutcome
  | ok (claims : Claims)
  | expiredSignature
  | jwtError (msg : String)
  deriving Repr, DecidableEq

/-- python-jose's `_validate_aud` / `_validate_iss` as configured here (single
string audience): a missing claim passes, a present claim must equal the
configured value. -/
def joseValidateAudIss (c : Claims) (audience issuer : String) : JoseOutcome :=
  if (match c.aud with | some a => a != audience | none => false) then
    .jwtError "Invalid audience"
  else if (match c.iss with | some i => i != issuer | none => false) then
    .jwtError "Invalid issuer"
  else
    .ok c

/-- python-jose `jwt.decode(token, key, algorithms=["RS256"], audience, issuer,
options=verify aud/iss/exp)` as called in `_decode_and_validate_token`:
malformed token → `JWTError`; signature verified first (`JWSError` → `JWTError`);
then claims in jose's order: `exp` (`ExpiredSignatureError` exactly when
`exp < now`), then `aud`, then `iss`. -/
def jose_decode (token : Token) (key : Dict) (audience issuer : String) (now : Int) :
    JoseOutcome :=
  match token.header with
  | none => .jwtError "Error decoding token headers."
  | some _ =>
    if token.sigOk key then
      match token.claims.exp with
      | some e =>
        if e < now then .expiredSignature
        else joseValidateAudIss token.claims audience issuer
      | none => joseValidateAudIss token.claims audience issuer
    else
      .jwtError "Signature verification failed."

/-- Result of `_decode_and_validate_token`: value or exception, cache after the
call, whether the JWKS fetch was reached, and whether `jwt.decode` (and hence a
signature check) was reached. -/
structure DecodeResult where
  result : PyResult Claims
  cache : JwksCache
  fetchCalled : Bool
  sigChecked : Bool
  deriving Repr, DecidableEq

/-- The fixed mock claim dict returned when Cognito is not configured. -/
def mockClaims : Claims :=
  ⟨some "mock-user-id", some "mock@example.com", some "access", none, none, none⟩

/-- `_decode_and_validate_token(token, settings)` from `app/core/auth.py`.
Python truthiness: `not settings.cognito_user_pool_id` holds exactly when the
string is empty, and `if not signing_key` is taken both when the lookup returned
`None` and when it returned an *empty* (falsy) dict. -/
def _decode_and_validate_token (token : Token) (settings : Settings)
    (fetch : FetchResult) (now : Int) (cache : JwksCache) : DecodeResult :=
  if settings.cognito_user_pool_id = "" ∨ settings.cognito_client_id = "" then
    ⟨.ok mockClaims, cache, false, false⟩
  else
    match _get_jwks fetch now cache with
    | ⟨.raised e, cache2, fc⟩ => ⟨.raised e, cache2, fc, false⟩
    | ⟨.ok jwks, cache2, fc⟩ =>
      match _get_signing_key token jwks with
      | none => ⟨.raised (.httpExc 401 "Invalid token signature"), cache2, fc, false⟩
      | some key =>
        if key = [] then
          ⟨.raised (.httpExc 401 "Invalid token signature"), cache2, fc, false⟩
        else
          match jose_decode token key settings.cognito_client_id settings.cognito_issuer now with
          | .ok c => ⟨.ok c, cache2, fc, true⟩
          | .expiredSignature =>
            ⟨.raised (.httpExc 401 "Token has expired"), cache2, fc, true⟩
          | .jwtError m =>
            ⟨.raised (.httpExc 401 ("Invalid token: " ++ m)), cache2, fc, true⟩

/-- The identity projection `get_current_user` returns. -/
structure Identity where
  sub : Option String
  email : Option String
  token_use : Option String
  deriving Repr, DecidableEq

/-- Result of `get_current_user`: value or exception, cache after the call, and
the token string handed to `_decode_and_validate_token` (`none` when
verification was never reached). -/
structure UserResult where
  result : PyResult Identity
  cache : JwksCache
  tokenUsed : Option String
  deriving Repr, DecidableEq

/-- `get_current_user(credentials, settings, access_token)` from
`app/core/auth.py`.  `credentials` is the `HTTPAuthorizationCredentials`
(`some c` carries `credentials.credentials = c`; the object is truthy whenever
present), `access_token` the cookie string (truthy only when non-empty).
`tokenOf` maps the chosen token string to its abstract parse, connecting the
string-level interface to the structured `Token` model. -/
def get_current_user (credentials : Option String) (settings : Settings)
    (access_token : Option String) (fetch : FetchResult) (now : Int)
    (cache : JwksCache) (tokenOf : String → Token) : UserResult :=
  let token : Option String :=
    match credentials with
    | some c => some c
    | none =>
      match access_token with
      | some a => if a = "" then none else some a
      | none => none
  match token with
  | none => ⟨.raised (.httpExc 401 "No se proporcionó token de autenticación"), cache, none⟩
  | some t =>
    if t = "" then
      ⟨.raised (.httpExc 401 "No se proporcionó token de autenticación"), cache, none⟩
    else
      match _decode_and_validate_token (tokenOf t) settings fetch now cache with
      | ⟨.raised e, cache2, _, _⟩ => ⟨.raised e, cache2, some t⟩
      | ⟨.ok c, cache2, _, _⟩ => ⟨.ok ⟨c.sub, c.email, c.token_use⟩, cache2, some t⟩

/-- The spec's KeySet invariant: the cache is either in its never-fetched state
(empty key list, timestamp `0`) or holds at least one key. -/
def cacheInv (c : JwksCache) : Prop :=
  c.keys = [] → c.fetched_at = 0

instance (c : JwksCache) : Decidable (cacheInv c) := by
  unfold cacheInv; infer_instance

/-- A fetch outcome that, when successful, delivers at least one key. -/
def fetchDeliversKeys : FetchResult → Bool
  | .ok ks => !(ks.getD []).isEmpty
  | _ => true

/-- `true` exactly on the 503 `ServiceUnavailable` failure. -/
def isServiceUnavailable : PyErr → Bool
  | .httpExc 503 _ => true
  | _ => false

/-- `true` exactly when a `_get_jwks` result raised the 503 `ServiceUnavailable`
failure (any detail string). -/
def raisedServiceUnavailable : PyResult (List Dict) → Bool
  | .raised e => isServiceUnavailable e
  | .ok _ => false

example : dictGet [("kid", "a"), ("kty", "RSA")] "kid" = some "a" := by decide
example : dictGet [] "kid" = none := by decide
example : _get_jwks (.ok (some [[("kid", "a")]])) 10 ⟨[], 0⟩ =
    ⟨.ok [[("kid", "a")]], ⟨[[("kid", "a")]], 10⟩, true⟩ := by decide

/-! ## Helper lemmas (shared) -/

/-- On a fresh, non-empty cache `_get_jwks` is a pure read. -/
theorem getJwks_hit (fetch : FetchResult) (now : Int) (cache : JwksCache)
    (hne : cache.keys ≠ []) (hfresh : now - cache.fetched_at < 3600) :
    _get_jwks fetch now cache = ⟨.ok cache.keys, cache, false⟩ := by
  unfold _get_jwks
  rw [if_pos ⟨hne, hfresh⟩]

/-- A stale or empty cache falsifies the serve-from-cache condition. -/
theorem miss_cond_neg (now : Int) (cache : JwksCache)
    (hmiss : cache.keys = [] ∨ 3600 ≤ now - cache.fetched_at) :
    ¬(cache.keys ≠ [] ∧ now - cache.fetched_at < JWKS_CACHE_TTL) := by
  rintro ⟨h1, h2⟩
  rcases hmiss with h | h
  · exact h1 h
  · exact absurd h2 (not_lt.mpr h)

/-! ## Claim theorems -/

/-- C3: with a non-empty cached key list and `now - fetched_at < 3600`,
`_get_jwks` returns exactly the cached keys, reaches no network fetch, and
leaves the cache (keys and timestamp) unchanged. -/
theorem c3_cache_hit_serves_cached (fetch : FetchResult) (now : Int) (cache : JwksCache)
    (hne : cache.keys ≠ []) (hfresh : now - cache.fetched_at < 3600) :
    (_get_jwks fetch now cache).result = .ok cache.keys ∧
    (_get_jwks fetch now cache).cache = cache ∧
    (_get_jwks fetch now cache).fetchCalled = false := by
  rw [getJwks_hit fetch now cache hne hfresh]
  exact ⟨rfl, rfl, rfl⟩

theorem c3_cache_hit_serves_cached_witness :
    ([[("kid", "a")]] : List Dict) ≠ [] ∧ (200 : Int) - 100 < 3600 ∧
    ((_get_jwks (.ok none) 200 ⟨[[("kid", "a")]], 100⟩).result = .ok [[("kid", "a")]] ∧
      (_get_jwks (.ok none) 200 ⟨[[("kid", "a")]], 100⟩).cache = ⟨[[("kid", "a")]], 100⟩ ∧
      (_get_jwks (.ok none) 200 ⟨[[("kid", "a")]], 100⟩).fetchCalled = false) :=
  ⟨by decide, by decide,
    c3_cache_hit_serves_cached (.ok none) 200 ⟨[[("kid", "a")]], 100⟩ (by decide) (by decide)⟩

/-- C4: when the fetch is reached (cache empty or stale) and it fails with a
transport error or a non-success HTTP status, `_get_jwks` raises the 503
`ServiceUnavailable` `HTTPException` and the cache keeps its prior keys and
prior timestamp; the stale keys are not returned. -/
theorem c4_fetch_failure_503 (fetch : FetchResult) (now : Int) (cache : JwksCache) (m : String)
    (hmiss : cache.keys = [] ∨ 3600 ≤ now - cache.fetched_at)
    (hfail : fetch = .transportError m ∨ fetch = .statusError m) :
    _get_jwks fetch now cache =
      ⟨.raised (.httpExc 503 ("Could not fetch JWKS: " ++ m)), cache, true⟩ := by
  unfold _get_jwks
  rw [if_neg (miss_cond_neg now cache hmiss)]
  rcases hfail with h | h <;> subst h <;> rfl

theorem c4_fetch_failure_503_witness :
    (([] : List Dict) = [] ∨ (3600 : Int) ≤ 7 - 0) ∧
    _get_jwks (.statusError "Server error 500") 7 ⟨[], 0⟩ =
      ⟨.raised (.httpExc 503 "Could not fetch JWKS: Server error 500"), ⟨[], 0⟩, true⟩ :=
  ⟨Or.inl rfl,
    c4_fetch_failure_503 (.statusError "Server error 500") 7 ⟨[], 0⟩ "Server error 500"
      (Or.inl rfl) (Or.inr rfl)⟩

/-- C5 counterexample: a successful HTTP response with a malformed JSON body
makes `response.json()` raise `json.JSONDecodeError`, which is not an
`httpx.HTTPError` and escapes the handler uncaught — the result is not the 503
`ServiceUnavailable` failure the claim requires. -/
theorem c5_malformed_body_counterexample :
    (_get_jwks .malformedBody 10 ⟨[], 0⟩).result = .raised .jsonDecodeError ∧
    raisedServiceUnavailable (_get_jwks .malformedBody 10 ⟨[], 0⟩).result = false := by
  decide

/-- C5 amended: when the fetch is reached and the response body is malformed,
`_get_jwks` lets the `json.JSONDecodeError` escape (it is not mapped to the 503
`ServiceUnavailable` failure); the cache keeps its prior state. -/
theorem c5_malformed_body_escapes (now : Int) (cache : JwksCache)
    (hmiss : cache.keys = [] ∨ 3600 ≤ now - cache.fetched_at) :
    _get_jwks .malformedBody now cache = ⟨.raised .jsonDecodeError, cache, true⟩ := by
  unfold _get_jwks
  rw [if_neg (miss_cond_neg now cache hmiss)]

theorem c5_malformed_body_escapes_witness :
    (([] : List Dict) = [] ∨ (3600 : Int) ≤ 10 - 0) ∧
    _get_jwks .malformedBody 10 ⟨[], 0⟩ = ⟨.raised .jsonDecodeError, ⟨[], 0⟩, true⟩ :=
  ⟨Or.inl rfl, c5_malformed_body_escapes 10 ⟨[], 0⟩ (Or.inl rfl)⟩

/-- C9 counterexample: from the initial cache, a successful fetch whose body
carries an empty `keys` array installs an empty key list together with a set
timestamp, violating the invariant "empty implies never fetched". -/
theorem c9_cache_invariant_counterexample :
    cacheInv ⟨[], 0⟩ ∧
    (_get_jwks (.ok (some [])) 5 ⟨[], 0⟩).cache = ⟨[], 5⟩ ∧
    ¬cacheInv ((_get_jwks (.ok (some [])) 5 ⟨[], 0⟩).cache) := by
  decide

/-- C9 amended: `_get_jwks` preserves the invariant (empty key list only in the
never-fetched state with timestamp 0) provided every successful fetch body
carries at least one key; without that proviso a successful empty fetch
installs an empty key list with a set timestamp. -/
theorem c9_cache_invariant_preserved (fetch : FetchResult) (now : Int) (cache : JwksCache)
    (hinv : cacheInv cache) (hfetch : fetchDeliversKeys fetch = true) :
    cacheInv (_get_jwks fetch now cache).cache := by
  unfold _get_jwks
  by_cases hc : cache.keys ≠ [] ∧ now - cache.fetched_at < JWKS_CACHE_TTL
  · rw [if_pos hc]; exact hinv
  · rw [if_neg hc]
    cases fetch with
    | transportError m => exact hinv
    | statusError m => exact hinv
    | malformedBody => exact hinv
    | ok ks =>
      intro hk
      exfalso
      have hne : (ks.getD []).isEmpty = false := by
        simpa [fetchDeliversKeys] using hfetch
      rw [List.isEmpty_eq_false] at hne
      exact hne hk

theorem c9_cache_invariant_preserved_witness :
    cacheInv ⟨[], 0⟩ ∧ fetchDeliversKeys (.ok (some [[("kid", "a")]])) = true ∧
    cacheInv ((_get_jwks (.ok (some [[("kid", "a")]])) 5 ⟨[], 0⟩).cache) :=
  ⟨by decide, by decide,
    c9_cache_invariant_preserved (.ok (some [[("kid", "a")]])) 5 ⟨[], 0⟩ (by decide) (by decide)⟩

/-- A payload with every optional field absent, for concrete instances. -/
def noClaims : Claims := ⟨none, none, none, none, none, none⟩

/-- C7: with Cognito unconfigured (empty user-pool id or empty client id),
`_decode_and_validate_token` returns the fixed mock claim set
`{sub: "mock-user-id", email: "mock@example.com", token_use: "access"}` for any
token, reaching neither the JWKS fetch nor a signature check, cache untouched. -/
theorem c7_mock_mode (token : Token) (settings : Settings) (fetch : FetchResult)
    (now : Int) (cache : JwksCache)
    (hun : settings.cognito_user_pool_id = "" ∨ settings.cognito_client_id = "") :
    _decode_and_validate_token token settings fetch now cache =
      ⟨.ok mockClaims, cache, false, false⟩ := by
  unfold _decode_and_validate_token
  rw [if_pos hun]

theorem c7_mock_mode_witness :
    (("" : String) = "" ∨ ("client" : String) = "") ∧
    _decode_and_validate_token ⟨none, fun _ => false, noClaims⟩ ⟨"", "client", "eu-west-1"⟩
        (.ok none) 0 ⟨[], 0⟩ = ⟨.ok mockClaims, ⟨[], 0⟩, false, false⟩ :=
  ⟨Or.inl rfl,
    c7_mock_mode ⟨none, fun _ => false, noClaims⟩ ⟨"", "client", "eu-west-1"⟩
      (.ok none) 0 ⟨[], 0⟩ (Or.inl rfl)⟩

/-- C1: with the provider configured and the key set served from the fresh
cache, a parsed token header whose `kid` equals no cached key's `kid` makes
`_decode_and_validate_token` raise the 401 "Invalid token signature"
(`InvalidSignature`) failure; no claim set is returned and the cache is
untouched. -/
theorem c1_unmatched_kid_fails (token : Token) (settings : Settings)
    (fetch : FetchResult) (now : Int) (cache : JwksCache) (h : Dict)
    (hconf : settings.cognito_user_pool_id ≠ "" ∧ settings.cognito_client_id ≠ "")
    (hne : cache.keys ≠ []) (hfresh : now - cache.fetched_at < 3600)
    (hhdr : token.header = some h)
    (hnokid : ∀ key ∈ cache.keys, dictGet key "kid" ≠ dictGet h "kid") :
    _decode_and_validate_token token settings fetch now cache =
      ⟨.raised (.httpExc 401 "Invalid token signature"), cache, false, false⟩ := by
  have hj := getJwks_hit fetch now cache hne hfresh
  have hsk : _get_signing_key token cache.keys = none := by
    unfold _get_signing_key
    rw [hhdr]
    refine List.find?_eq_none.mpr ?_
    intro key hk
    simpa using hnokid key hk
  unfold _decode_and_validate_token
  rw [if_neg (not_or.mpr hconf), hj]
  simp [hsk]

theorem c1_unmatched_kid_fails_witness :
    (∀ key ∈ ([[("kid", "k1")]] : List Dict),
        dictGet key "kid" ≠ dictGet [("kid", "zzz")] "kid") ∧
    _decode_and_validate_token ⟨some [("kid", "zzz")], fun _ => true, noClaims⟩
        ⟨"p", "c", "r"⟩ (.ok none) 10 ⟨[[("kid", "k1")]], 0⟩ =
      ⟨.raised (.httpExc 401 "Invalid token signature"), ⟨[[("kid", "k1")]], 0⟩, false, false⟩ :=
  ⟨by decide,
    c1_unmatched_kid_fails ⟨some [("kid", "zzz")], fun _ => true, noClaims⟩
      ⟨"p", "c", "r"⟩ (.ok none) 10 ⟨[[("kid", "k1")]], 0⟩ [("kid", "zzz")]
      ⟨by decide, by decide⟩ (by decide) (by decide) rfl (by decide)⟩

/-- C2: with the provider configured, keys from the fresh cache, a matching
non-empty signing key, a valid signature, and aud/iss matching the
configuration, an `exp` in the past yields the distinct 401 "Token has expired"
(`Expired`) failure, not the generic invalid-token failure. -/
theorem c2_expired_fails_expired (token : Token) (settings : Settings) (fetch : FetchResult)
    (now : Int) (cache : JwksCache) (key : Dict) (e : Int)
    (hconf : settings.cognito_user_pool_id ≠ "" ∧ settings.cognito_client_id ≠ "")
    (hne : cache.keys ≠ []) (hfresh : now - cache.fetched_at < 3600)
    (hkey : _get_signing_key token cache.keys = some key) (hkeyne : key ≠ [])
    (hsig : token.sigOk key = true)
    (hexp : token.claims.exp = some e) (hpast : e < now)
    (haud : token.claims.aud = some settings.cognito_client_id)
    (hiss : token.claims.iss = some settings.cognito_issuer) :
    (_decode_and_validate_token token settings fetch now cache).result =
      .raised (.httpExc 401 "Token has expired") := by
  have hj := getJwks_hit fetch now cache hne hfresh
  cases hh : token.header with
  | none => simp [_get_signing_key, hh] at hkey
  | some h =>
    have hjd : jose_decode token key settings.cognito_client_id settings.cognito_issuer now =
        .expiredSignature := by
      unfold jose_decode
      rw [hh]
      simp [hsig, hexp, hpast]
    unfold _decode_and_validate_token
    rw [if_neg (not_or.mpr hconf), hj]
    simp [hkey, hkeyne, hjd]

theorem c2_expired_fails_expired_witness :
    ((100 : Int) < 200) ∧
    (_decode_and_validate_token
        ⟨some [("kid", "k1")], fun _ => true,
          ⟨some "u1", some "u1@example.com", some "access", some 100, some "client",
            some "https://cognito-idp.eu-west-1.amazonaws.com/pool"⟩⟩
        ⟨"pool", "client", "eu-west-1"⟩ (.ok none) 200 ⟨[[("kid", "k1")]], 0⟩).result =
      .raised (.httpExc 401 "Token has expired") :=
  ⟨by decide,
    c2_expired_fails_expired
      ⟨some [("kid", "k1")], fun _ => true,
        ⟨some "u1", some "u1@example.com", some "access", some 100, some "client",
          some "https://cognito-idp.eu-west-1.amazonaws.com/pool"⟩⟩
      ⟨"pool", "client", "eu-west-1"⟩ (.ok none) 200 ⟨[[("kid", "k1")]], 0⟩
      [("kid", "k1")] 100 ⟨by decide, by decide⟩ (by decide) (by decide)
      (by decide) (by decide) rfl rfl (by decide) rfl rfl⟩

/-- C6 counterexample: a token whose compact structure is malformed (header
unparsable) fails with the very same 401 "Invalid token signature"
(`InvalidSignature`) failure used for an unmatched `kid` — not a distinct
`InvalidToken` ("Invalid token: ...") failure as the claim requires. -/
theorem c6_malformed_token_counterexample :
    (_decode_and_validate_token ⟨none, fun _ => true, noClaims⟩ ⟨"p", "c", "r"⟩
        (.ok none) 10 ⟨[[("kid", "k1")]], 0⟩).result =
      .raised (.httpExc 401 "Invalid token signature") := by
  decide

/-- C6 amended: a token whose header cannot be parsed fails with the 401
"Invalid token signature" failure — the same one an unmatched key-identifier
gets (malformed structure is not reported as a distinct `InvalidToken`
failure). -/
theorem c6_malformed_token_invalid_signature (token : Token) (settings : Settings)
    (fetch : FetchResult) (now : Int) (cache : JwksCache)
    (hconf : settings.cognito_user_pool_id ≠ "" ∧ settings.cognito_client_id ≠ "")
    (hne : cache.keys ≠ []) (hfresh : now - cache.fetched_at < 3600)
    (hmal : token.header = none) :
    _decode_and_validate_token token settings fetch now cache =
      ⟨.raised (.httpExc 401 "Invalid token signature"), cache, false, false⟩ := by
  have hj := getJwks_hit fetch now cache hne hfresh
  have hsk : _get_signing_key token cache.keys = none := by
    unfold _get_signing_key
    rw [hmal]
  unfold _decode_and_validate_token
  rw [if_neg (not_or.mpr hconf), hj]
  simp [hsk]

theorem c6_malformed_token_invalid_signature_witness :
    ((⟨none, fun _ => true, noClaims⟩ : Token).header = none) ∧
    _decode_and_validate_token ⟨none, fun _ => true, noClaims⟩ ⟨"p", "c", "r"⟩
        (.ok none) 10 ⟨[[("kid", "k1")]], 0⟩ =
      ⟨.raised (.httpExc 401 "Invalid token signature"), ⟨[[("kid", "k1")]], 0⟩, false, false⟩ :=
  ⟨rfl,
    c6_malformed_token_invalid_signature ⟨none, fun _ => true, noClaims⟩ ⟨"p", "c", "r"⟩
      (.ok none) 10 ⟨[[("kid", "k1")]], 0⟩ ⟨by decide, by decide⟩ (by decide) (by decide) rfl⟩

/-- C8: with both a header bearer credential and a cookie token present, the
header credential is the one handed to the verifier; with neither present, the
result is the distinct 401 "No se proporcionó token de autenticación"
(no-token-supplied) failure. -/
theorem c8_token_source_precedence (settings : Settings) (fetch : FetchResult) (now : Int)
    (cache : JwksCache) (tokenOf : String → Token) (c b : String) (hc : c ≠ "") :
    (get_current_user (some c) settings (some b) fetch now cache tokenOf).tokenUsed = some c ∧
    get_current_user none settings none fetch now cache tokenOf =
      ⟨.raised (.httpExc 401 "No se proporcionó token de autenticación"), cache, none⟩ := by
  constructor
  · rcases hres : _decode_and_validate_token (tokenOf c) settings fetch now cache with
      ⟨res, cache2, fc, sc⟩
    cases res <;> simp [get_current_user, hc, hres]
  · rfl

theorem c8_token_source_precedence_witness :
    ("A" : String) ≠ "" ∧
    ((get_current_user (some "A") ⟨"p", "c", "r"⟩ (some "B") (.ok none) 0 ⟨[], 0⟩
        (fun _ => ⟨none, fun _ => true, noClaims⟩)).tokenUsed = some "A" ∧
      get_current_user none ⟨"p", "c", "r"⟩ none (.ok none) 0 ⟨[], 0⟩
          (fun _ => ⟨none, fun _ => true, noClaims⟩) =
        ⟨.raised (.httpExc 401 "No se proporcionó token de autenticación"), ⟨[], 0⟩, none⟩) :=
  ⟨by decide,
    c8_token_source_precedence ⟨"p", "c", "r"⟩ (.ok none) 0 ⟨[], 0⟩
      (fun _ => ⟨none, fun _ => true, noClaims⟩) "A" "B" (by decide)⟩

/-- C10 counterexample: with a kid-less parsed header and a key set whose only
key is a kid-less *empty* record, the lookup does return that key (absent
matches absent), but `if not signing_key` treats the empty (falsy) dict like a
missing key: verification does not proceed and the call fails with the
no-matching-key 401 "Invalid token signature" error, contradicting the claim. -/
theorem c10_kidless_empty_key_counterexample :
    _get_signing_key ⟨some [], fun _ => true, noClaims⟩ [[]] = some [] ∧
    (_decode_and_validate_token ⟨some [], fun _ => true, noClaims⟩ ⟨"p", "c", "r"⟩
        (.ok none) 10 ⟨[[]], 0⟩).result = .raised (.httpExc 401 "Invalid token signature") ∧
    (_decode_and_validate_token ⟨some [], fun _ => true, noClaims⟩ ⟨"p", "c", "r"⟩
        (.ok none) 10 ⟨[[]], 0⟩).sigChecked = false := by
  decide

/-- C10 amended: a kid-less header matches the first kid-less key of the served
key set (absent matches absent) and verification proceeds with that key,
provided the key record is non-empty; an empty (Python-falsy) key record
instead trips `if not signing_key` and fails like a missing key. -/
theorem c10_kidless_key_proceeds (token : Token) (settings : Settings) (fetch : FetchResult)
    (now : Int) (cache : JwksCache) (h : Dict) (key : Dict)
    (hconf : settings.cognito_user_pool_id ≠ "" ∧ settings.cognito_client_id ≠ "")
    (hne : cache.keys ≠ []) (hfresh : now - cache.fetched_at < 3600)
    (hhdr : token.header = some h) (hkid : dictGet h "kid" = none)
    (hfind : cache.keys.find? (fun k => dictGet k "kid" == none) = some key)
    (hkeyne : key ≠ []) :
    _get_signing_key token cache.keys = some key ∧
    (_decode_and_validate_token token settings fetch now cache).sigChecked = true := by
  have hj := getJwks_hit fetch now cache hne hfresh
  have hsk : _get_signing_key token cache.keys = some key := by
    unfold _get_signing_key
    rw [hhdr]
    simpa [hkid] using hfind
  refine ⟨hsk, ?_⟩
  unfold _decode_and_validate_token
  rw [if_neg (not_or.mpr hconf), hj]
  cases hjd : jose_decode token key settings.cognito_client_id settings.cognito_issuer now <;>
    simp [hsk, hkeyne, hjd]

theorem c10_kidless_key_proceeds_witness :
    (([("kty", "RSA")] : Dict) ≠ []) ∧
    (_get_signing_key ⟨some [], fun _ => true, noClaims⟩ [[("kty", "RSA")]] =
        some [("kty", "RSA")] ∧
      (_decode_and_validate_token ⟨some [], fun _ => true, noClaims⟩ ⟨"p", "c", "r"⟩
          (.ok none) 10 ⟨[[("kty", "RSA")]], 0⟩).sigChecked = true) :=
  ⟨by decide,
    c10_kidless_key_proceeds ⟨some [], fun _ => true, noClaims⟩ ⟨"p", "c", "r"⟩
      (.ok none) 10 ⟨[[("kty", "RSA")]], 0⟩ [] [("kty", "RSA")]
      ⟨by decide, by decide⟩ (by decide) (by decide) rfl (by decide) (by decide) (by decide)⟩
